import Mathlib

/-!
Verification development for the wristband-dev/fastapi-template backend.

The subsystems with real invariants are the tenant-scoped encrypted secret
store (`stores/secrets_store.py`, `services/secrets_service.py`) and the
subscription lifecycle manager (`services/stripe_service.py`), both built on
the generic tenant-scoped document store (`stores/base.py`).

The document-database primitives (`database/doc_store.py`), the encryption
primitives (`services/encryption_service.py`) and the session model
(`models/wristband/session.py`) are not part of the sources at hand; those
are modelled from the specification (spec sections 4.1 and 6).  Everything
else is translated directly from the Python sources.
-/

set_option maxRecDepth 4000

/-- Modelled from the spec: the session object (`models/wristband/session.py`
is not among the sources).  The spec says a session resolves tenant identity
(id and display name) and an email, any of which may be absent. -/
structure MySession where
  tenant_id : Option String
  tenant_name : Option String
  email : Option String
deriving DecidableEq, Repr

/-- Modelled from the spec (section 4.1): the backing document database
(`database/doc_store.py` is not among the sources).  Documents live in a
collection keyed by an optional tenant scope together with a document id;
`nextId` feeds auto-generated document ids for `add_document`. -/
structure StoreState (α : Type) where
  docs : List (Option String × String × α)
  nextId : Nat
deriving DecidableEq, Repr

/-- Modelled from the spec: `add_document` stores a record under a freshly
generated document id inside the given tenant scope and returns the id. -/
def add_document (s : StoreState α) (tenant : Option String) (v : α) :
    String × StoreState α :=
  let docId := "doc" ++ toString s.nextId
  (docId, ⟨s.docs ++ [(tenant, docId, v)], s.nextId + 1⟩)

/-- Modelled from the spec: `set_document` is an upsert with full replace,
keyed by tenant scope and document id. -/
def set_document (s : StoreState α) (tenant : Option String) (docId : String)
    (v : α) : StoreState α :=
  ⟨(s.docs.filter (fun d => !(d.1 == tenant && d.2.1 == docId))) ++
      [(tenant, docId, v)], s.nextId⟩

/-- Modelled from the spec: `update_document` replaces the stored record when
the document exists within the scope; the claims below never reach the
missing-document case, which the provider would report as not-found. -/
def update_document (s : StoreState α) (tenant : Option String) (docId : String)
    (v : α) : StoreState α :=
  ⟨s.docs.map (fun d => if d.1 == tenant && d.2.1 == docId then (d.1, d.2.1, v) else d),
   s.nextId⟩

/-- Modelled from the spec: `get_document` returns the record stored under the
tenant scope and document id, if any. -/
def get_document (s : StoreState α) (tenant : Option String) (docId : String) :
    Option α :=
  (s.docs.find? (fun d => d.1 == tenant && d.2.1 == docId)).map (fun d => d.2.2)

/-- Modelled from the spec: `query_documents` returns every record in the
tenant scope satisfying the field predicate, in insertion order. -/
def query_documents (s : StoreState α) (tenant : Option String)
    (pred : α → Bool) : List α :=
  (s.docs.filter (fun d => d.1 == tenant && pred d.2.2)).map (fun d => d.2.2)

/-- Modelled from the spec: `doc_exists` tests presence of a document. -/
def doc_exists (s : StoreState α) (tenant : Option String) (docId : String) :
    Bool :=
  (get_document s tenant docId).isSome

/-- Modelled from the spec: `delete_document` removes the document from the
scope and reports whether it was present. -/
def delete_document (s : StoreState α) (tenant : Option String) (docId : String) :
    Bool × StoreState α :=
  (doc_exists s tenant docId,
   ⟨s.docs.filter (fun d => !(d.1 == tenant && d.2.1 == docId)), s.nextId⟩)

/-- BaseStore.get_by_field (stores/base.py): query by equality on a named
field; `getF` plays the role of reading a named field off the serialized
document.  The caller-supplied value is optional because callers pass
`session.tenant_id`, which can be absent; a query against an absent value
matches no stored record (every stored field is a real string). -/
def BaseStore.get_by_field (getF : α → String → Option String)
    (s : StoreState α) (scope : Option String) (field : String)
    (value : Option String) : List α :=
  query_documents s scope (fun v => getF v field == value)

/-- BaseStore.get_all (stores/base.py): all documents in the scope. -/
def get_all (s : StoreState α) (scope : Option String) : List α :=
  query_documents s scope (fun _ => true)

/-! ### Secrets data model (models/secrets.py) -/

/-- Database model for stored secrets: the encrypted form (models/secrets.py). -/
structure Secret where
  name : String
  displayName : String
  environmentId : String
  encryptedToken : String
deriving DecidableEq, Repr

/-- API input model for creating/updating a secret, with plaintext token
(models/secrets.py). -/
structure SecretConfig where
  name : String
  displayName : String
  environmentId : String
  token : String
deriving DecidableEq, Repr

/-- API response model for secrets, with decrypted token (models/secrets.py). -/
structure SecretResponse where
  name : String
  displayName : String
  environmentId : String
  token : String
deriving DecidableEq, Repr

/-- Modelled from the spec (section 6): the encryption capability
(`services/encryption_service.py` is not among the sources):
`encrypt(plaintext) -> ciphertext`, `decrypt(ciphertext) -> plaintext` (which
may fail), `is_available() -> bool`. -/
structure EncryptionService where
  encrypt : String → String
  decrypt : String → Option String
  available : Bool

/-- Error raised by the secrets store when a stored ciphertext cannot be
decrypted (stores/secrets_store.py, `_decrypt_secret` raises
`ValueError("Failed to decrypt secret {name}: ...")`). -/
inductive SecretsStoreError where
  | decryption_error (name : String)
deriving DecidableEq, Repr

/-! ### SecretsStore (stores/secrets_store.py)

The store is tenant-scoped (`use_tenant_scope=True`), so every operation uses
`session.tenant_id` as its scope.  The secrets world is just the state of the
`secrets` collection. -/

/-- SecretsStore.save_secret: encrypt the token, build the storage model, and
`set` (full-replace upsert) keyed by the secret name.  Returns the document id
(the name) and the updated collection. -/
def save_secret (enc : EncryptionService) (session : MySession)
    (s : StoreState Secret) (config : SecretConfig) :
    String × StoreState Secret :=
  let secret : Secret :=
    ⟨config.name, config.displayName, config.environmentId,
     enc.encrypt config.token⟩
  (config.name, set_document s session.tenant_id config.name secret)

/-- SecretsStore._decrypt_secret: convert a stored Secret to a SecretResponse,
failing with a distinct decryption error when the ciphertext cannot be
recovered. -/
def decryptSecret (enc : EncryptionService) (secret : Secret) :
    Except SecretsStoreError SecretResponse :=
  match enc.decrypt secret.encryptedToken with
  | some t => .ok ⟨secret.name, secret.displayName, secret.environmentId, t⟩
  | none => .error (.decryption_error secret.name)

/-- SecretsStore.get_secret: fetch by name in the session's tenant scope and
decrypt; absent documents yield `none`, decryption failure propagates. -/
def get_secret (enc : EncryptionService) (session : MySession)
    (s : StoreState Secret) (name : String) :
    Except SecretsStoreError (Option SecretResponse) :=
  match get_document s session.tenant_id name with
  | none => .ok none
  | some secret => (decryptSecret enc secret).map some

/-- The list comprehension in SecretsStore.get_all_secrets: decrypt each
record left to right, failing at the first undecryptable one. -/
def decryptAll (enc : EncryptionService) :
    List Secret → Except SecretsStoreError (List SecretResponse)
  | [] => .ok []
  | secret :: rest =>
    match decryptSecret enc secret with
    | .error e => .error e
    | .ok r => (decryptAll enc rest).map (fun tl => r :: tl)

/-- SecretsStore.get_all_secrets: all secrets of the tenant, each decrypted. -/
def get_all_secrets (enc : EncryptionService) (session : MySession)
    (s : StoreState Secret) : Except SecretsStoreError (List SecretResponse) :=
  decryptAll enc (get_all s session.tenant_id)

/-! ### SecretsService (services/secrets_service.py)

The service checks datastore availability, then encryption availability,
before touching the store; uncaught store errors become a generic
internal_error response. -/

/-- Result of SecretsService.get_secrets: either the decrypted list or a JSON
error response carrying an HTTP status and an error code. -/
inductive GetSecretsResult where
  | secrets (xs : List SecretResponse)
  | errorResp (status : Nat) (error : String)
deriving DecidableEq, Repr

/-- Result of SecretsService.upsert_secret: the 201 success response or a JSON
error response. -/
inductive UpsertResult where
  | created
  | errorResp (status : Nat) (error : String)
deriving DecidableEq, Repr

/-- SecretsService.get_secrets: database check, then encryption check, then
the store read; a store-level failure (e.g. decryption) is caught by the
blanket handler and surfaced as internal_error 500. -/
def SecretsService.get_secrets (dbAvailable : Bool) (enc : EncryptionService)
    (session : MySession) (s : StoreState Secret) : GetSecretsResult :=
  if !dbAvailable then .errorResp 503 "datastore_unavailable"
  else if !enc.available then .errorResp 503 "encryption_unavailable"
  else
    match get_all_secrets enc session s with
    | .ok xs => .secrets xs
    | .error _ => .errorResp 500 "internal_error"

/-- SecretsService.upsert_secret: database check, then encryption check, then
save; on success a 201 response.  Returns the response together with the
resulting state of the secrets collection. -/
def SecretsService.upsert_secret (dbAvailable : Bool) (enc : EncryptionService)
    (session : MySession) (config : SecretConfig) (s : StoreState Secret) :
    UpsertResult × StoreState Secret :=
  if !dbAvailable then (.errorResp 503 "datastore_unavailable", s)
  else if !enc.available then (.errorResp 503 "encryption_unavailable", s)
  else
    let res := save_secret enc session s config
    (.created, res.2)

/-! ### Stripe data model (models/stripe.py) -/

/-- Stripe price billing interval (models/stripe.py). -/
inductive PriceInterval where
  | day | week | month | year
deriving DecidableEq, Repr

/-- Constructing `PriceInterval(s)` in Python from a string raises on an
unknown value; here the parse is partial via Option. -/
def PriceInterval.ofString : String → Option PriceInterval
  | "day" => some .day
  | "week" => some .week
  | "month" => some .month
  | "year" => some .year
  | _ => none

/-- Stripe subscription status (models/stripe.py). -/
inductive SubscriptionStatus where
  | active | canceled | incomplete | incomplete_expired
  | past_due | paused | trialing | unpaid
deriving DecidableEq, Repr

/-- Partial parse mirroring the Python `SubscriptionStatus(s)` constructor. -/
def SubscriptionStatus.ofString : String → Option SubscriptionStatus
  | "active" => some .active
  | "canceled" => some .canceled
  | "incomplete" => some .incomplete
  | "incomplete_expired" => some .incomplete_expired
  | "past_due" => some .past_due
  | "paused" => some .paused
  | "trialing" => some .trialing
  | "unpaid" => some .unpaid
  | _ => none

/-- A Stripe product with its associated price (models/stripe.py). -/
structure StripeProduct where
  id : String
  name : String
  description : Option String
  price_id : String
  price_amount : Int
  price_currency : String
  price_interval : Option PriceInterval
deriving DecidableEq, Repr

/-- Normalized view of a Stripe subscription (models/stripe.py). -/
structure StripeSubscription where
  id : String
  status : SubscriptionStatus
  current_period_start : Int
  current_period_end : Int
  cancel_at_period_end : Bool
  cancel_at : Option Int
  product_id : String
  product_name : String
  product_description : Option String
  price_id : String
  price_amount : Int
  price_currency : String
  price_interval : Option PriceInterval
deriving DecidableEq, Repr

/-! ### Provider-side objects, as observed by this service

The billing provider SDK returns prices whose `product` field is either a
bare id string (not expanded, or deleted) or an expanded product object; the
code branches on this shape, so the model keeps both forms. -/

/-- The `product` field of a provider price object: a bare reference id, or an
expanded object with id, name, description and active flag. -/
inductive ProductExpand where
  | idRef (id : String)
  | obj (id : String) (name : String) (description : Option String)
      (active : Bool)
deriving DecidableEq, Repr

/-- A provider price object as returned by `Price.list` / inside subscription
items. -/
structure SPrice where
  id : String
  unit_amount : Option Int
  currency : String
  recurring_interval : Option String
  product : ProductExpand
deriving DecidableEq, Repr

/-- A provider subscription item: its price and the current period bounds. -/
structure SItem where
  price : SPrice
  current_period_start : Option Int
  current_period_end : Option Int
deriving DecidableEq, Repr

/-- A provider subscription object, with the customer it belongs to and the
status string the provider reports. -/
structure SSub where
  id : String
  status : String
  customer : String
  cancel_at_period_end : Bool
  cancel_at : Option Int
  items : List SItem
deriving DecidableEq, Repr

/-- An un-invoiced provider invoice item (usage charge). -/
structure InvoiceItem where
  id : String
  customer : String
  amount : Int
  currency : String
  description : String
  pending : Bool
  date : Int
deriving DecidableEq, Repr

/-- One call issued against the billing provider API; the world records every
call so that claims about "no provider calls" or "exactly one cancellation
call" are about this log. -/
inductive ProviderCall where
  | customerCreate (email : String)
  | customerModify (id : String) (email : String)
  | subscriptionList (customer : String) (status : String)
  | subscriptionCreate (customer : String) (priceId : String)
  | subscriptionCancel (id : String)
  | priceList
  | invoiceItemCreate (customer : String) (amount : Int) (description : String)
  | invoiceItemList (customer : String)
deriving DecidableEq, Repr

/-- Recognizer for cancellation calls in the provider call log. -/
def ProviderCall.isCancel : ProviderCall → Bool
  | .subscriptionCancel _ => true
  | _ => false

/-- Recognizer for invoice-item calls (create or list) in the call log. -/
def ProviderCall.isInvoiceItemCall : ProviderCall → Bool
  | .invoiceItemCreate _ _ _ => true
  | .invoiceItemList _ => true
  | _ => false

/-- Recognizer for customer-creation calls in the call log. -/
def ProviderCall.isCustomerCreate : ProviderCall → Bool
  | .customerCreate _ => true
  | _ => false

/-! ### Customer mapping (models/customer.py, stores/customer_store.py)

The customer store is global (`use_tenant_scope=False`), so every operation
on the `customers` collection uses scope `none` and `tenant_id` lives as an
ordinary field of the document.  The `metadata` bag and the server-assigned
timestamps play no role in any claim and are omitted from the record. -/

/-- CustomerMapping record: links a tenant to a Stripe customer id
(models/customer.py). -/
structure Customer where
  id : String
  tenant_id : String
  email : String
deriving DecidableEq, Repr

/-- Field access on a serialized Customer document, for `get_by_field`. -/
def Customer.getField (c : Customer) (f : String) : Option String :=
  if f == "id" then some c.id
  else if f == "tenant_id" then some c.tenant_id
  else if f == "email" then some c.email
  else none

/-- CustomerStore.get_by_field: the customer collection is global, scope is
`none` (stores/customer_store.py via stores/base.py). -/
def CustomerStore.get_by_field (s : StoreState Customer) (field : String)
    (value : Option String) : List Customer :=
  BaseStore.get_by_field Customer.getField s none field value

/-- The whole world the billing service acts on: the local `customers`
collection plus the provider-side state (customers, subscriptions, active
price listing, pending invoice items) and the log of provider calls.
`prices` is what `stripe.Price.list(active=True)` returns. -/
structure World where
  customers : StoreState Customer
  stripeCustomers : List (String × String)
  nextStripeCustomer : Nat
  subs : List SSub
  nextStripeSub : Nat
  prices : List SPrice
  productTable : List (String × String × Option String)
  invoiceItems : List InvoiceItem
  nextInvoiceItem : Nat
  calls : List ProviderCall
deriving DecidableEq, Repr

/-- Append a provider call to the world's call log. -/
def logCall (w : World) (c : ProviderCall) : World :=
  { w with calls := w.calls ++ [c] }

/-! ### StripeService (services/stripe_service.py) -/

/-- Billing configuration constant (stripe_service.py line 26). -/
def FREE_TRIAL_DURATION_DAYS : Option Int := some 1

/-- Billing configuration constant (stripe_service.py line 27). -/
def DEFAULT_CURRENCY : String := "usd"

/-- StripeService.get_products: walk the active price listing; skip prices
whose product is a bare string or inactive; parse the recurring interval
(raising, as the Python enum constructor does, on an unknown interval); skip
zero-amount prices; keep the rest in listing order. -/
def get_products : List SPrice → Except String (List StripeProduct)
  | [] => .ok []
  | price :: rest =>
    match price.product with
    | .idRef _ => get_products rest
    | .obj pid pname pdesc pactive =>
      if !pactive then get_products rest
      else
        let price_amount := price.unit_amount.getD 0
        match price.recurring_interval with
        | some i =>
          match PriceInterval.ofString i with
          | none => .error ("invalid PriceInterval: " ++ i)
          | some interval =>
            if price_amount == 0 then get_products rest
            else
              (get_products rest).map (fun tl =>
                ⟨pid, pname, pdesc, price.id, price_amount, price.currency,
                 some interval⟩ :: tl)
        | none =>
          if price_amount == 0 then get_products rest
          else
            (get_products rest).map (fun tl =>
              ⟨pid, pname, pdesc, price.id, price_amount, price.currency,
               none⟩ :: tl)

/-- stripe.Subscription.list(customer=..., status=..., limit=10): the
provider returns that customer's subscriptions with the requested status
(at most 10), and the call is logged. -/
def listSubscriptions (w : World) (customerId : String) (status : String) :
    List SSub × World :=
  ((w.subs.filter (fun s => s.customer == customerId && s.status == status)).take 10,
   logCall w (.subscriptionList customerId status))

/-- stripe.Subscription.cancel(id): the provider marks the subscription
canceled; the call is logged.  (The Python code catches a provider
`InvalidRequestError` here and continues; the model has no failing
cancellations, which only matters for claims about failure absorption.) -/
def cancelSubscription (w : World) (sid : String) : World :=
  { w with
    subs := w.subs.map (fun s => if s.id == sid then { s with status := "canceled" } else s),
    calls := w.calls ++ [.subscriptionCancel sid] }

/-- StripeService._cleanup_duplicate_subscriptions: partition into trialing
vs. non-trialing; when both sets are nonempty, cancel every trialing
subscription at the provider and keep only the non-trialing ones; otherwise
return the input list unchanged. -/
def cleanup_duplicate_subscriptions (subscriptions : List SSub) (w : World) :
    List SSub × World :=
  let trialing_subs := subscriptions.filter (fun s => s.status == "trialing")
  let active_subs := subscriptions.filter (fun s => !(s.status == "trialing"))
  if !active_subs.isEmpty && !trialing_subs.isEmpty then
    (active_subs, trialing_subs.foldl (fun w t => cancelSubscription w t.id) w)
  else
    (subscriptions, w)

/-- StripeService._subscription_to_model: take the first line item only
(error if none); resolve product identity from the expanded object or, for a
bare id, by a provider product lookup that falls back to a placeholder name
when it fails; parse interval and status as the Python enum constructors do.
`productTable` stands for the provider's product catalog consulted by
`stripe.Product.retrieve`. -/
def subscription_to_model (productTable : List (String × String × Option String))
    (sub : SSub) : Except String StripeSubscription :=
  match sub.items with
  | [] => .error "Subscription has no items"
  | item :: _ =>
    let price := item.price
    let productInfo : String × String × Option String :=
      match price.product with
      | .idRef pid =>
        match productTable.find? (fun p => p.1 == pid) with
        | some p => (pid, p.2.1, p.2.2)
        | none => (pid, "Unknown", none)
      | .obj pid pname pdesc _ => (pid, pname, pdesc)
    let intervalE : Except String (Option PriceInterval) :=
      match price.recurring_interval with
      | none => .ok none
      | some i =>
        match PriceInterval.ofString i with
        | none => .error ("invalid PriceInterval: " ++ i)
        | some pi => .ok (some pi)
    match intervalE with
    | .error e => .error e
    | .ok price_interval =>
      match SubscriptionStatus.ofString sub.status with
      | none => .error ("invalid SubscriptionStatus: " ++ sub.status)
      | some st =>
        .ok ⟨sub.id, st,
             item.current_period_start.getD 0,
             item.current_period_end.getD 0,
             sub.cancel_at_period_end,
             (match sub.cancel_at with
              | some c => if c == 0 then none else some c
              | none => none),
             productInfo.1, productInfo.2.1, productInfo.2.2,
             price.id, price.unit_amount.getD 0, price.currency,
             price_interval⟩

/-- stripe.Customer.create: the provider mints a fresh customer id and records
the email; the call is logged. -/
def stripeCustomerCreate (w : World) (email : String) : String × World :=
  let cid := "cus_" ++ toString w.nextStripeCustomer
  (cid,
   { w with
     stripeCustomers := w.stripeCustomers ++ [(cid, email)],
     nextStripeCustomer := w.nextStripeCustomer + 1,
     calls := w.calls ++ [.customerCreate email] })

/-- stripe.Customer.modify(id, email=...): the provider updates the stored
email; the call is logged; the returned customer keeps the same id. -/
def stripeCustomerModify (w : World) (cid : String) (email : String) : World :=
  { w with
    stripeCustomers := w.stripeCustomers.map
      (fun sc => if sc.1 == cid then (sc.1, email) else sc),
    calls := w.calls ++ [.customerModify cid email] }

/-- stripe.Subscription.create for the trial: the provider records a new
trialing subscription on the first paid price; the call is logged.  The trial
end timestamp is wall-clock time in the Python code and is not modelled. -/
def stripeTrialSubscriptionCreate (w : World) (cid : String) (priceId : String) :
    World :=
  let sid := "sub_" ++ toString w.nextStripeSub
  let item : List SItem :=
    match w.prices.find? (fun p => p.id == priceId) with
    | some p => [⟨p, some 0, some 0⟩]
    | none => []
  { w with
    subs := w.subs ++ [⟨sid, "trialing", cid, false, none, item⟩],
    nextStripeSub := w.nextStripeSub + 1,
    calls := w.calls ++ [.subscriptionCreate cid priceId] }

/-- StripeService.ensure_customer: resolve email (override or session) and
tenant identity, failing with a validation error when any is absent; return
the existing mapping's customer id (updating the provider and local email on
a differing override); otherwise create a provider customer, persist the
CustomerMapping, then — the trial duration constant being positive — fetch
the paid products (error if none) and create the trial subscription.  The
returned world reflects every step performed before a failure. -/
def ensure_customer (session : MySession) (billing_email : Option String)
    (w : World) : Except String String × World :=
  let email? : Option String :=
    match billing_email with
    | some e => some e
    | none => session.email
  match email?, session.tenant_name, session.tenant_id with
  | some email, some tenant_name, some tenant_id =>
    let _ := tenant_name
    match CustomerStore.get_by_field w.customers "tenant_id" (some tenant_id) with
    | c :: _ =>
      match billing_email with
      | some be =>
        if c.email != be then
          let w := stripeCustomerModify w c.id email
          let w := { w with
            customers := update_document w.customers none c.id
              ⟨c.id, tenant_id, email⟩ }
          (.ok c.id, w)
        else
          (.ok c.id, w)
      | none => (.ok c.id, w)
    | [] =>
      let res := stripeCustomerCreate w email
      let customer_id := res.1
      let w := res.2
      let addRes := add_document w.customers none ⟨customer_id, tenant_id, email⟩
      let w := { w with customers := addRes.2 }
      match FREE_TRIAL_DURATION_DAYS with
      | some d =>
        if d > 0 then
          let w := logCall w .priceList
          match get_products w.prices with
          | .error e => (.error e, w)
          | .ok [] =>
            (.error "No paid products available for trial subscription", w)
          | .ok (p :: _) =>
            (.ok customer_id, stripeTrialSubscriptionCreate w customer_id p.price_id)
        else
          (.ok customer_id, w)
      | none => (.ok customer_id, w)
  | _, _, _ => (.error "Email and tenant_name and tenant_id are required", w)

/-- The tail of StripeService.get_active_subscription once a customer id is
in hand: list the customer's `active` and `trialing` subscriptions, return
absent when there are none, reconcile duplicates when more than one, and
return the normalized view of the first remaining subscription. -/
def fetch_and_reconcile (customer_id : String) (w : World) :
    Except String (Option StripeSubscription) × World :=
  let activeRes := listSubscriptions w customer_id "active"
  let trialingRes := listSubscriptions activeRes.2 customer_id "trialing"
  let w := trialingRes.2
  let all_subs := activeRes.1 ++ trialingRes.1
  match all_subs with
  | [] => (.ok none, w)
  | _ :: _ =>
    let cleaned :=
      if all_subs.length > 1 then cleanup_duplicate_subscriptions all_subs w
      else (all_subs, w)
    match cleaned.1 with
    | [] => (.error "index out of range", cleaned.2)
    | sub :: _ => ((subscription_to_model w.productTable sub).map some, cleaned.2)

/-- StripeService.get_active_subscription: find the tenant's CustomerMapping,
bootstrapping via `ensure_customer` (propagating its failures) when absent
and returning absent when even the re-fetch finds nothing; then reconcile
that customer's provider subscriptions. -/
def get_active_subscription (session : MySession) (w : World) :
    Except String (Option StripeSubscription) × World :=
  match CustomerStore.get_by_field w.customers "tenant_id" session.tenant_id with
  | c :: _ => fetch_and_reconcile c.id w
  | [] =>
    match ensure_customer session none w with
    | (.error e, w) => (.error e, w)
    | (.ok _, w) =>
      match CustomerStore.get_by_field w.customers "tenant_id" session.tenant_id with
      | [] => (.ok none, w)
      | c :: _ => fetch_and_reconcile c.id w

/-- StripeService.update_billing_email: fail with "No customer found" when
the tenant has no CustomerMapping; otherwise update the provider customer and
the local mapping and return the new email. -/
def update_billing_email (session : MySession) (new_email : String) (w : World) :
    Except String String × World :=
  match CustomerStore.get_by_field w.customers "tenant_id" session.tenant_id with
  | [] => (.error "No customer found", w)
  | c :: _ =>
    let w := stripeCustomerModify w c.id new_email
    let w := { w with
      customers := update_document w.customers none c.id
        ⟨c.id, session.tenant_id.getD "", new_email⟩ }
    (.ok new_email, w)

/-- StripeService.add_usage: fail with "No customer found. Please set up
billing first." when the tenant has no CustomerMapping; otherwise create a
pending invoice item against the customer and return its details. -/
def add_usage (session : MySession) (amount : Int) (description : String)
    (w : World) : Except String InvoiceItem × World :=
  match CustomerStore.get_by_field w.customers "tenant_id" session.tenant_id with
  | [] => (.error "No customer found. Please set up billing first.", w)
  | c :: _ =>
    let iid := "ii_" ++ toString w.nextInvoiceItem
    let item : InvoiceItem := ⟨iid, c.id, amount, DEFAULT_CURRENCY, description, true, 0⟩
    (.ok item,
     { w with
       invoiceItems := w.invoiceItems ++ [item],
       nextInvoiceItem := w.nextInvoiceItem + 1,
       calls := w.calls ++ [.invoiceItemCreate c.id amount description] })

/-- StripeService.get_pending_usage: when the tenant has no CustomerMapping,
log a warning and return the empty list without touching the provider;
otherwise list the customer's pending invoice items (limit 100). -/
def get_pending_usage (session : MySession) (w : World) :
    Except String (List InvoiceItem) × World :=
  match CustomerStore.get_by_field w.customers "tenant_id" session.tenant_id with
  | [] => (.ok [], w)
  | c :: _ =>
    ((.ok ((w.invoiceItems.filter (fun i => i.customer == c.id && i.pending)).take 100)),
     logCall w (.invoiceItemList c.id))

/-! ### Concrete scenarios used by witnesses and counterexamples -/

/-- A concrete encryption service whose decrypt inverts encrypt. -/
def encOk : EncryptionService := ⟨fun t => t, fun c => some c, true⟩

/-- A concrete encryption service reporting itself unavailable. -/
def encDown : EncryptionService := ⟨fun t => t, fun c => some c, false⟩

/-- A concrete encryption service whose decrypt always fails. -/
def encBad : EncryptionService := ⟨fun t => t, fun _ => none, true⟩

/-- A session for tenant A with all identity fields resolved. -/
def sessA : MySession := ⟨some "tenantA", some "Tenant A", some "a@example.com"⟩

/-- A session for tenant B with all identity fields resolved. -/
def sessB : MySession := ⟨some "tenantB", some "Tenant B", some "b@example.com"⟩

/-- A concrete secret configuration with plaintext token. -/
def cfg0 : SecretConfig := ⟨"api_key", "API Key", "env-1", "tok-123"⟩

/-- The empty secrets collection. -/
def emptySecrets : StoreState Secret := ⟨[], 0⟩

/-- A stored secret whose ciphertext `encBad` cannot decrypt. -/
def badSecret : Secret := ⟨"api_key", "API Key", "env-1", "garbled"⟩

/-- A secrets collection holding `badSecret` under tenant A. -/
def badStore : StoreState Secret := ⟨[(some "tenantA", "api_key", badSecret)], 1⟩

/-- A provider price for a paid Pro plan with an expanded active product. -/
def priceObjW : SPrice :=
  ⟨"price_1", some 1000, "usd", some "month", .obj "prod_1" "Pro" none true⟩

/-- The CustomerMapping of tenant A to provider customer cus_0. -/
def custMapA : Customer := ⟨"cus_0", "tenantA", "a@example.com"⟩

/-- A customers collection holding exactly tenant A's mapping. -/
def custStoreA : StoreState Customer := ⟨[(none, "doc0", custMapA)], 1⟩

/-- A subscription line item on the Pro price. -/
def itemPro : SItem := ⟨priceObjW, some 10, some 20⟩

/-- An `active` provider subscription of customer cus_0. -/
def subActive : SSub := ⟨"sub_a", "active", "cus_0", false, none, [itemPro]⟩

/-- A `trialing` provider subscription of customer cus_0. -/
def subTrial : SSub := ⟨"sub_t", "trialing", "cus_0", false, none, [itemPro]⟩

/-- World where tenant A's customer has one active and one trialing
subscription. -/
def wBoth : World :=
  ⟨custStoreA, [("cus_0", "a@example.com")], 1, [subActive, subTrial], 2,
   [priceObjW], [], [], 0, []⟩

/-- World where tenant A's customer has only the trialing subscription. -/
def wTrialOnly : World :=
  ⟨custStoreA, [("cus_0", "a@example.com")], 1, [subTrial], 2,
   [priceObjW], [], [], 0, []⟩

/-- World with no customers at all but a paid price on offer. -/
def wFresh : World := ⟨⟨[], 0⟩, [], 0, [], 0, [priceObjW], [], [], 0, []⟩

/-- World with no customers and no paid prices on offer. -/
def wNoPrices : World := ⟨⟨[], 0⟩, [], 0, [], 0, [], [], [], 0, []⟩

/-- A second, anomalous CustomerMapping for tenant A. -/
def custMapDup : Customer := ⟨"cus_9", "tenantA", "dup@example.com"⟩

/-- A customers collection anomalously holding two mappings for tenant A. -/
def custStoreDup : StoreState Customer :=
  ⟨[(none, "doc0", custMapA), (none, "doc1", custMapDup)], 2⟩

/-- World where tenant A anomalously has two CustomerMappings. -/
def wDup : World :=
  ⟨custStoreDup, [("cus_0", "a@example.com"), ("cus_9", "dup@example.com")], 2,
   [], 0, [priceObjW], [], [], 0, []⟩

/-! ### Helper lemmas about find? and filter -/

/-- Searching a list filtered by `g` with a predicate `p` that forces `g`
gives the same result as searching the unfiltered list. -/
theorem find?_filter_of_imp (l : List β) (p g : β → Bool)
    (h : ∀ x, p x = true → g x = true) :
    (l.filter g).find? p = l.find? p := by
  induction l with
  | nil => rfl
  | cons a l ih =>
    by_cases hp : p a = true
    · have hg := h a hp
      simp [List.filter_cons, hg, List.find?_cons, hp]
    · cases hga : g a with
      | true => simp [List.filter_cons, hga, List.find?_cons, hp, ih]
      | false => simp [List.filter_cons, hga, List.find?_cons, hp, ih]

/-- Filtering by `p` after filtering by a `g` that `p` forces is the same as
filtering by `p` alone. -/
theorem filter_filter_of_imp (l : List β) (p g : β → Bool)
    (h : ∀ x, p x = true → g x = true) :
    (l.filter g).filter p = l.filter p := by
  induction l with
  | nil => rfl
  | cons a l ih =>
    by_cases hp : p a = true
    · have hg := h a hp
      simp [List.filter_cons, hg, hp, ih]
    · cases hga : g a with
      | true => simp [List.filter_cons, hga, hp, ih]
      | false => simp [List.filter_cons, hga, hp, ih]

/-- Reading back the exact key just written by `set_document` returns the
written record. -/
theorem get_document_set_document_self (s : StoreState α)
    (tenant : Option String) (docId : String) (v : α) :
    get_document (set_document s tenant docId v) tenant docId = some v := by
  unfold get_document set_document
  rw [List.find?_append]
  have hnone : (s.docs.filter
      (fun d => !(d.1 == tenant && d.2.1 == docId))).find?
      (fun d => d.1 == tenant && d.2.1 == docId) = none := by
    rw [List.find?_eq_none]
    intro x hx
    rw [List.mem_filter] at hx
    intro hp
    rw [hp] at hx
    simp at hx
  rw [hnone]
  simp [List.find?_cons]

/-- On an undecryptable member, decrypting the whole list fails with a
decryption error (for some record name in the list). -/
theorem decryptAll_error_of_mem (enc : EncryptionService) (l : List Secret)
    (secret : Secret) (hmem : secret ∈ l)
    (hfail : enc.decrypt secret.encryptedToken = none) :
    ∃ m, decryptAll enc l = .error (SecretsStoreError.decryption_error m) := by
  induction l with
  | nil => cases hmem
  | cons a l ih =>
    cases hD : enc.decrypt a.encryptedToken with
    | none => exact ⟨a.name, by simp [decryptAll, decryptSecret, hD]⟩
    | some t =>
      rcases List.mem_cons.mp hmem with h | h
      · subst h
        rw [hfail] at hD
        cases hD
      · obtain ⟨m, hm⟩ := ih h
        exact ⟨m, by simp [decryptAll, decryptSecret, hD, hm, Except.map]⟩

/-! ### Claim theorems: secrets -/

/-- C3: for every plaintext token and every name/displayName/environmentId,
`save_secret` followed by `get_secret` of the same name under the same tenant
returns the original plaintext token unchanged, together with the unchanged
`displayName` and `environmentId`, assuming decrypt inverts encrypt. -/
theorem save_then_get_secret_roundtrip (enc : EncryptionService)
    (session : MySession) (s : StoreState Secret) (config : SecretConfig)
    (hrt : enc.decrypt (enc.encrypt config.token) = some config.token) :
    get_secret enc session (save_secret enc session s config).2 config.name =
      .ok (some ⟨config.name, config.displayName, config.environmentId,
                 config.token⟩) := by
  unfold get_secret save_secret
  rw [get_document_set_document_self]
  simp [decryptSecret, hrt, Except.map]

/-- Witness for C3 at a concrete encryption service, session, store and
secret configuration. -/
theorem save_then_get_secret_roundtrip_witness :
    encOk.decrypt (encOk.encrypt cfg0.token) = some cfg0.token ∧
    get_secret encOk sessA (save_secret encOk sessA emptySecrets cfg0).2
        cfg0.name =
      .ok (some ⟨cfg0.name, cfg0.displayName, cfg0.environmentId,
                 cfg0.token⟩) :=
  ⟨rfl, save_then_get_secret_roundtrip encOk sessA emptySecrets cfg0 rfl⟩

/-- C4: a Secret written via `save_secret` under tenant A's session is never
seen by `get_secret` or `get_all_secrets` under distinct tenant B's session:
the results observed under tenant B are exactly what they were before tenant
A's write, even for an identical name. -/
theorem secret_tenant_isolation (enc : EncryptionService) (sA sB : MySession)
    (s : StoreState Secret) (config : SecretConfig) (name : String)
    (a b : String) (ha : sA.tenant_id = some a) (hb : sB.tenant_id = some b)
    (hne : a ≠ b) :
    get_secret enc sB (save_secret enc sA s config).2 name =
        get_secret enc sB s name ∧
      get_all_secrets enc sB (save_secret enc sA s config).2 =
        get_all_secrets enc sB s := by
  have himp : ∀ x : Option String × String × Secret,
      (x.1 == sB.tenant_id) = true →
      (!(x.1 == sA.tenant_id && x.2.1 == config.name)) = true := by
    intro x hx
    rw [ha, hb] at *
    have hxb : x.1 = some b := by
      exact eq_of_beq hx
    simp [hxb, hne.symm]
  constructor
  · unfold get_secret save_secret set_document get_document
    rw [List.find?_append]
    have hlast : (List.find?
        (fun d => d.1 == sB.tenant_id && d.2.1 == name)
        [(sA.tenant_id, config.name,
          (⟨config.name, config.displayName, config.environmentId,
            enc.encrypt config.token⟩ : Secret))]) = none := by
      rw [List.find?_eq_none]
      intro x hx
      rw [List.mem_singleton] at hx
      subst hx
      rw [ha, hb]
      simp
      intro hab
      exact absurd hab hne
    rw [hlast]
    rw [find?_filter_of_imp _ _ _
      (fun x hx => himp x (by
        simp only [Bool.and_eq_true] at hx
        exact hx.1))]
    rw [Option.or_none]
  · unfold get_all_secrets save_secret set_document get_all query_documents
    rw [List.filter_append]
    have hlast : (List.filter
        (fun d => d.1 == sB.tenant_id && true)
        [(sA.tenant_id, config.name,
          (⟨config.name, config.displayName, config.environmentId,
            enc.encrypt config.token⟩ : Secret))]) = [] := by
      rw [List.filter_eq_nil_iff]
      intro x hx
      rw [List.mem_singleton] at hx
      subst hx
      rw [ha, hb]
      simp
      exact hne
    rw [hlast]
    rw [filter_filter_of_imp _ _ _
      (fun x hx => himp x (by
        simp only [Bool.and_eq_true] at hx
        exact hx.1))]
    simp

/-- Witness for C4 at concrete sessions for two distinct tenants and a
concrete secret write. -/
theorem secret_tenant_isolation_witness :
    sessA.tenant_id = some "tenantA" ∧ sessB.tenant_id = some "tenantB" ∧
    "tenantA" ≠ "tenantB" ∧
    (get_secret encOk sessB (save_secret encOk sessA emptySecrets cfg0).2
          cfg0.name =
        get_secret encOk sessB emptySecrets cfg0.name ∧
      get_all_secrets encOk sessB (save_secret encOk sessA emptySecrets cfg0).2 =
        get_all_secrets encOk sessB emptySecrets) :=
  ⟨rfl, rfl, by decide,
   secret_tenant_isolation encOk sessA sessB emptySecrets cfg0 cfg0.name
     "tenantA" "tenantB" rfl rfl (by decide)⟩

/-- C5 counterexample: with the datastore also unavailable, an unavailable
encryption capability does not surface as encryption_unavailable — the
operations fail with datastore_unavailable instead, because the service
checks the datastore first (services/secrets_service.py lines 55-81). -/
theorem encryption_unavailable_counterexample :
    encDown.available = false ∧
    SecretsService.upsert_secret false encDown sessA cfg0 emptySecrets =
      (.errorResp 503 "datastore_unavailable", emptySecrets) ∧
    SecretsService.get_secrets false encDown sessA emptySecrets =
      .errorResp 503 "datastore_unavailable" := by
  refine ⟨rfl, ?_, ?_⟩ <;> rfl

/-- C5 (amended): provided the datastore is available, whenever the
encryption capability reports itself unavailable, the save
(`upsert_secret`/`save_secret`) and the read (`get_secrets`) fail with the
distinct encryption_unavailable condition and the save performs no write to
the document store. -/
theorem encryption_unavailable_rejects (enc : EncryptionService)
    (session : MySession) (config : SecretConfig) (s : StoreState Secret)
    (hun : enc.available = false) :
    SecretsService.upsert_secret true enc session config s =
        (.errorResp 503 "encryption_unavailable", s) ∧
      SecretsService.get_secrets true enc session s =
        .errorResp 503 "encryption_unavailable" := by
  constructor <;>
    simp [SecretsService.upsert_secret, SecretsService.get_secrets, hun]

/-- Witness for the amended C5 at a concrete unavailable encryption service. -/
theorem encryption_unavailable_rejects_witness :
    encDown.available = false ∧
    (SecretsService.upsert_secret true encDown sessA cfg0 emptySecrets =
        (.errorResp 503 "encryption_unavailable", emptySecrets) ∧
      SecretsService.get_secrets true encDown sessA emptySecrets =
        .errorResp 503 "encryption_unavailable") :=
  ⟨rfl, encryption_unavailable_rejects encDown sessA cfg0 emptySecrets rfl⟩

/-- C6: a stored secret whose ciphertext cannot be decrypted makes any read
touching it fail with the distinct decryption error: `get_secret` of that
name fails naming the record, and `get_all_secrets` over a collection
containing it fails as well — the record is not dropped and no ciphertext is
returned. -/
theorem undecryptable_secret_read_fails (enc : EncryptionService)
    (session : MySession) (s : StoreState Secret) (secret : Secret)
    (hstored : get_document s session.tenant_id secret.name = some secret)
    (hmem : secret ∈ get_all s session.tenant_id)
    (hfail : enc.decrypt secret.encryptedToken = none) :
    get_secret enc session s secret.name =
        .error (.decryption_error secret.name) ∧
      ∃ m, get_all_secrets enc session s =
        .error (SecretsStoreError.decryption_error m) := by
  constructor
  · unfold get_secret
    rw [hstored]
    simp [decryptSecret, hfail, Except.map]
  · unfold get_all_secrets
    exact decryptAll_error_of_mem enc _ secret hmem hfail

/-- Witness for C6 at a concrete store holding an undecryptable secret. -/
theorem undecryptable_secret_read_fails_witness :
    get_document badStore sessA.tenant_id badSecret.name = some badSecret ∧
    badSecret ∈ get_all badStore sessA.tenant_id ∧
    encBad.decrypt badSecret.encryptedToken = none ∧
    (get_secret encBad sessA badStore badSecret.name =
        .error (.decryption_error badSecret.name) ∧
      ∃ m, get_all_secrets encBad sessA badStore =
        .error (SecretsStoreError.decryption_error m)) :=
  ⟨by decide, by decide, rfl,
   undecryptable_secret_read_fails encBad sessA badStore badSecret
     (by decide) (by decide) rfl⟩

/-! ### Claim theorems: billing -/

/-- C7: for a tenant with no CustomerMapping, `update_billing_email` fails
with the "No customer found" condition and returns the world untouched: no
provider call is issued and neither the local store nor the provider state
changes. -/
theorem update_billing_email_no_mapping (session : MySession)
    (new_email : String) (w : World)
    (hnone : CustomerStore.get_by_field w.customers "tenant_id"
      session.tenant_id = []) :
    update_billing_email session new_email w = (.error "No customer found", w) := by
  unfold update_billing_email
  rw [hnone]

/-- Witness for C7: tenant B has no mapping in `wBoth`. -/
theorem update_billing_email_no_mapping_witness :
    CustomerStore.get_by_field wBoth.customers "tenant_id" sessB.tenant_id
        = [] ∧
      update_billing_email sessB "new@example.com" wBoth =
        (.error "No customer found", wBoth) :=
  ⟨by decide, update_billing_email_no_mapping sessB "new@example.com" wBoth
    (by decide)⟩

/-- C8 counterexample: for a tenant with no CustomerMapping,
`get_pending_usage()` does not fail — it returns the empty list (the code
logs a warning and returns `[]`, stripe_service.py lines 526-528), so the
claim that both operations fail is false at this input. -/
theorem get_pending_usage_no_mapping_counterexample :
    CustomerStore.get_by_field wBoth.customers "tenant_id" sessB.tenant_id
        = [] ∧
      get_pending_usage sessB wBoth = (.ok [], wBoth) := by
  exact ⟨by decide, rfl⟩

/-- C8 (amended): for a tenant with no CustomerMapping, `add_usage` fails
with the "No customer found" condition while `get_pending_usage` returns the
empty list without failing; neither operation creates or lists invoice items
against any customer (the world, including the provider call log, is
untouched). -/
theorem usage_ops_no_mapping (session : MySession) (amount : Int)
    (description : String) (w : World)
    (hnone : CustomerStore.get_by_field w.customers "tenant_id"
      session.tenant_id = []) :
    add_usage session amount description w =
        (.error "No customer found. Please set up billing first.", w) ∧
      get_pending_usage session w = (.ok [], w) := by
  constructor
  · unfold add_usage
    rw [hnone]
  · unfold get_pending_usage
    rw [hnone]

/-- Witness for the amended C8: tenant B has no mapping in `wBoth`. -/
theorem usage_ops_no_mapping_witness :
    CustomerStore.get_by_field wBoth.customers "tenant_id" sessB.tenant_id
        = [] ∧
      (add_usage sessB 500 "Usage charge" wBoth =
          (.error "No customer found. Please set up billing first.", wBoth) ∧
        get_pending_usage sessB wBoth = (.ok [], wBoth)) :=
  ⟨by decide, usage_ops_no_mapping sessB 500 "Usage charge" wBoth (by decide)⟩

/-- Ten as successor, to unfold `List.take 10` on a cons cell. -/
theorem ten_eq_succ : (10 : Nat) = 9 + 1 := rfl

/-- Reconciliation core for one active plus one trialing subscription: the
provider listing yields exactly `[a]` active and `[t]` trialing, so cleanup
cancels `t` and the normalized view of `a` is returned; the resulting world
records the two list calls and the single cancellation. -/
theorem fetch_and_reconcile_trial_and_active (w : World) (cid : String)
    (a t : SSub)
    (hact : w.subs.filter
      (fun s => s.customer == cid && s.status == "active") = [a])
    (htri : w.subs.filter
      (fun s => s.customer == cid && s.status == "trialing") = [t]) :
    fetch_and_reconcile cid w =
      ((subscription_to_model w.productTable a).map some,
       { w with
         subs := w.subs.map
           (fun s => if s.id == t.id then { s with status := "canceled" } else s),
         calls := w.calls ++
           [.subscriptionList cid "active", .subscriptionList cid "trialing",
            .subscriptionCancel t.id] }) := by
  have hamem : a ∈ w.subs.filter
      (fun s => s.customer == cid && s.status == "active") := by
    rw [hact]
    exact List.mem_singleton_self a
  have ha : a.status = "active" := by
    have h1 := (List.mem_filter.mp hamem).2
    simp only [Bool.and_eq_true, beq_iff_eq] at h1
    exact h1.2
  have htmem : t ∈ w.subs.filter
      (fun s => s.customer == cid && s.status == "trialing") := by
    rw [htri]
    exact List.mem_singleton_self t
  have ht : t.status = "trialing" := by
    have h1 := (List.mem_filter.mp htmem).2
    simp only [Bool.and_eq_true, beq_iff_eq] at h1
    exact h1.2
  unfold fetch_and_reconcile listSubscriptions logCall
  simp only [hact, htri, ten_eq_succ, List.take_succ_cons, List.take_nil,
    List.singleton_append, List.length_cons, List.length_nil]
  norm_num
  unfold cleanup_duplicate_subscriptions
  simp only [List.filter_cons, List.filter_nil, ha, ht]
  norm_num
  unfold cancelSubscription
  simp [List.append_assoc]

/-- Cleanup is the identity on a list of all-trialing subscriptions: no paid
subscription exists alongside them, so nothing is cancelled. -/
theorem cleanup_all_trialing (l : List SSub) (w : World)
    (h : ∀ s ∈ l, s.status = "trialing") :
    cleanup_duplicate_subscriptions l w = (l, w) := by
  unfold cleanup_duplicate_subscriptions
  have hactive : l.filter (fun s => !(s.status == "trialing")) = [] := by
    rw [List.filter_eq_nil_iff]
    intro x hx
    simp [h x hx]
  rw [hactive]
  simp

/-- Reconciliation core for an all-trialing candidate set: no cancellation
happens and the first listed trialing subscription is normalized and
returned; the world gains only the two list calls. -/
theorem fetch_and_reconcile_all_trialing (w : World) (cid : String)
    (t : SSub) (ts : List SSub)
    (hact : w.subs.filter
      (fun s => s.customer == cid && s.status == "active") = [])
    (htri : w.subs.filter
      (fun s => s.customer == cid && s.status == "trialing") = t :: ts) :
    fetch_and_reconcile cid w =
      ((subscription_to_model w.productTable t).map some,
       { w with calls := w.calls ++
          [.subscriptionList cid "active", .subscriptionList cid "trialing"] }) := by
  have hall : ∀ s ∈ t :: ts.take 9, s.status = "trialing" := by
    intro s hs
    have hs' : s ∈ t :: ts := by
      rcases List.mem_cons.mp hs with h | h
      · rw [h]
        exact List.mem_cons_self t ts
      · exact List.mem_cons_of_mem t (List.take_subset _ _ h)
    have hmem : s ∈ w.subs.filter
        (fun s => s.customer == cid && s.status == "trialing") := by
      rw [htri]
      exact hs'
    have h1 := (List.mem_filter.mp hmem).2
    simp only [Bool.and_eq_true, beq_iff_eq] at h1
    exact h1.2
  unfold fetch_and_reconcile listSubscriptions logCall
  simp only [hact, htri, ten_eq_succ, List.take_succ_cons, List.take_nil,
    List.nil_append]
  rw [cleanup_all_trialing (t :: ts.take 9) _ hall]
  simp

/-- C1: for a customer with exactly one `active` and one `trialing`
subscription at the provider, `get_active_subscription()` issues exactly one
cancellation call, that call targets the trialing subscription, and the
operation returns the normalized view of the active one. -/
theorem reconcile_cancels_trial_keeps_active (session : MySession) (w : World)
    (c : Customer) (cs : List Customer) (a t : SSub)
    (hcust : CustomerStore.get_by_field w.customers "tenant_id"
      session.tenant_id = c :: cs)
    (hact : w.subs.filter
      (fun s => s.customer == c.id && s.status == "active") = [a])
    (htri : w.subs.filter
      (fun s => s.customer == c.id && s.status == "trialing") = [t]) :
    (get_active_subscription session w).1 =
        (subscription_to_model w.productTable a).map some ∧
      (get_active_subscription session w).2.calls.filter ProviderCall.isCancel =
        w.calls.filter ProviderCall.isCancel ++ [.subscriptionCancel t.id] := by
  unfold get_active_subscription
  rw [hcust]
  dsimp only
  rw [fetch_and_reconcile_trial_and_active w c.id a t hact htri]
  constructor
  · rfl
  · simp [List.filter_append, ProviderCall.isCancel]

/-- Witness for C1: tenant A's customer holds `subActive` and `subTrial`; the
lone cancellation targets `subTrial` and the normalized `subActive` returns. -/
theorem reconcile_cancels_trial_keeps_active_witness :
    CustomerStore.get_by_field wBoth.customers "tenant_id" sessA.tenant_id
        = custMapA :: [] ∧
    wBoth.subs.filter
        (fun s => s.customer == custMapA.id && s.status == "active")
        = [subActive] ∧
    wBoth.subs.filter
        (fun s => s.customer == custMapA.id && s.status == "trialing")
        = [subTrial] ∧
    ((get_active_subscription sessA wBoth).1 =
        (subscription_to_model wBoth.productTable subActive).map some ∧
      (get_active_subscription sessA wBoth).2.calls.filter
          ProviderCall.isCancel =
        wBoth.calls.filter ProviderCall.isCancel ++
          [.subscriptionCancel subTrial.id]) :=
  ⟨by decide, by decide, by decide,
   reconcile_cancels_trial_keeps_active sessA wBoth custMapA [] subActive
     subTrial (by decide) (by decide) (by decide)⟩

/-- C9: for a customer whose subscriptions are all `trialing` (none
`active`), `get_active_subscription()` issues no cancellation call, leaves
the provider's subscription set untouched, and returns the normalized view of
the first of those trialing subscriptions. -/
theorem reconcile_noop_all_trialing (session : MySession) (w : World)
    (c : Customer) (cs : List Customer) (t : SSub) (ts : List SSub)
    (hcust : CustomerStore.get_by_field w.customers "tenant_id"
      session.tenant_id = c :: cs)
    (hact : w.subs.filter
      (fun s => s.customer == c.id && s.status == "active") = [])
    (htri : w.subs.filter
      (fun s => s.customer == c.id && s.status == "trialing") = t :: ts) :
    (get_active_subscription session w).1 =
        (subscription_to_model w.productTable t).map some ∧
      (get_active_subscription session w).2.subs = w.subs ∧
      (get_active_subscription session w).2.calls.filter ProviderCall.isCancel =
        w.calls.filter ProviderCall.isCancel := by
  unfold get_active_subscription
  rw [hcust]
  dsimp only
  rw [fetch_and_reconcile_all_trialing w c.id t ts hact htri]
  refine ⟨rfl, rfl, ?_⟩
  simp [List.filter_append, ProviderCall.isCancel]

/-- Witness for C9: tenant A's customer has only `subTrial`; nothing is
cancelled, the provider set stays as observed, and normalized `subTrial`
returns. -/
theorem reconcile_noop_all_trialing_witness :
    CustomerStore.get_by_field wTrialOnly.customers "tenant_id"
        sessA.tenant_id = custMapA :: [] ∧
    wTrialOnly.subs.filter
        (fun s => s.customer == custMapA.id && s.status == "active") = [] ∧
    wTrialOnly.subs.filter
        (fun s => s.customer == custMapA.id && s.status == "trialing")
        = subTrial :: [] ∧
    ((get_active_subscription sessA wTrialOnly).1 =
        (subscription_to_model wTrialOnly.productTable subTrial).map some ∧
      (get_active_subscription sessA wTrialOnly).2.subs = wTrialOnly.subs ∧
      (get_active_subscription sessA wTrialOnly).2.calls.filter
          ProviderCall.isCancel =
        wTrialOnly.calls.filter ProviderCall.isCancel) :=
  ⟨by decide, by decide, by decide,
   reconcile_noop_all_trialing sessA wTrialOnly custMapA [] subTrial []
     (by decide) (by decide) (by decide)⟩

/-- The customer lookup ignores the store's id counter. -/
theorem customer_get_by_field_docs (docs : List (Option String × String × Customer))
    (n m : Nat) (field : String) (value : Option String) :
    CustomerStore.get_by_field ⟨docs, n⟩ field value =
      CustomerStore.get_by_field ⟨docs, m⟩ field value := rfl

/-- Appending a mapping whose tenant_id matches the queried tenant appends it
to the lookup's result. -/
theorem customer_get_by_field_append (s : StoreState Customer) (n : Nat)
    (c : Customer) (docId : String) (tid : String) (hc : c.tenant_id = tid) :
    CustomerStore.get_by_field ⟨s.docs ++ [(none, docId, c)], n⟩ "tenant_id"
        (some tid) =
      CustomerStore.get_by_field s "tenant_id" (some tid) ++ [c] := by
  unfold CustomerStore.get_by_field BaseStore.get_by_field query_documents
  rw [List.filter_append, List.map_append]
  simp [Customer.getField, hc]

/-- When a mapping already exists for the tenant and no email override is
supplied, `ensure_customer` returns the first mapping's customer id and
leaves the world untouched. -/
theorem ensure_customer_found (session : MySession) (w : World)
    (tid tname email : String) (c : Customer) (cs : List Customer)
    (hid : session.tenant_id = some tid)
    (hname : session.tenant_name = some tname)
    (hemail : session.email = some email)
    (hq : CustomerStore.get_by_field w.customers "tenant_id" (some tid)
      = c :: cs) :
    ensure_customer session none w = (.ok c.id, w) := by
  unfold ensure_customer
  dsimp only
  rw [hemail, hname, hid]
  dsimp only
  rw [hq]

/-- Fresh-tenant bootstrap with at least one paid product on offer: a
provider customer is created, the CustomerMapping is persisted, and a trial
subscription on the first paid price is created; the new customer id is
returned. -/
theorem ensure_customer_fresh_ok (session : MySession) (w : World)
    (tid tname email : String) (p : StripeProduct) (ps : List StripeProduct)
    (hid : session.tenant_id = some tid)
    (hname : session.tenant_name = some tname)
    (hemail : session.email = some email)
    (hq : CustomerStore.get_by_field w.customers "tenant_id" (some tid) = [])
    (hp : get_products w.prices = .ok (p :: ps)) :
    ensure_customer session none w =
      (.ok ("cus_" ++ toString w.nextStripeCustomer),
       stripeTrialSubscriptionCreate
         { w with
           customers := ⟨w.customers.docs ++
             [(none, "doc" ++ toString w.customers.nextId,
               ⟨"cus_" ++ toString w.nextStripeCustomer, tid, email⟩)],
             w.customers.nextId + 1⟩,
           stripeCustomers := w.stripeCustomers ++
             [("cus_" ++ toString w.nextStripeCustomer, email)],
           nextStripeCustomer := w.nextStripeCustomer + 1,
           calls := w.calls ++ [.customerCreate email, .priceList] }
         ("cus_" ++ toString w.nextStripeCustomer) p.price_id) := by
  unfold ensure_customer
  dsimp only
  rw [hemail, hname, hid]
  dsimp only
  rw [hq]
  simp only [stripeCustomerCreate, add_document, logCall,
    FREE_TRIAL_DURATION_DAYS]
  norm_num
  rw [hp]

/-- Fresh-tenant bootstrap with no paid product on offer: the provider
customer is created and the CustomerMapping is persisted, then the trial
creation fails, so the call errors with the mapping (and the provider
customer) already in place. -/
theorem ensure_customer_fresh_noproducts (session : MySession) (w : World)
    (tid tname email : String)
    (hid : session.tenant_id = some tid)
    (hname : session.tenant_name = some tname)
    (hemail : session.email = some email)
    (hq : CustomerStore.get_by_field w.customers "tenant_id" (some tid) = [])
    (hp : get_products w.prices = .ok []) :
    ensure_customer session none w =
      (.error "No paid products available for trial subscription",
       { w with
         customers := ⟨w.customers.docs ++
           [(none, "doc" ++ toString w.customers.nextId,
             ⟨"cus_" ++ toString w.nextStripeCustomer, tid, email⟩)],
           w.customers.nextId + 1⟩,
         stripeCustomers := w.stripeCustomers ++
           [("cus_" ++ toString w.nextStripeCustomer, email)],
         nextStripeCustomer := w.nextStripeCustomer + 1,
         calls := w.calls ++ [.customerCreate email, .priceList] }) := by
  unfold ensure_customer
  dsimp only
  rw [hemail, hname, hid]
  dsimp only
  rw [hq]
  simp only [stripeCustomerCreate, add_document, logCall,
    FREE_TRIAL_DURATION_DAYS]
  norm_num
  rw [hp]

/-- Fresh-tenant bootstrap when the product listing itself fails: the error
propagates out of `ensure_customer`. -/
theorem ensure_customer_fresh_proderror (session : MySession) (w : World)
    (tid tname email e : String)
    (hid : session.tenant_id = some tid)
    (hname : session.tenant_name = some tname)
    (hemail : session.email = some email)
    (hq : CustomerStore.get_by_field w.customers "tenant_id" (some tid) = [])
    (hp : get_products w.prices = .error e) :
    (ensure_customer session none w).1 = .error e := by
  unfold ensure_customer
  dsimp only
  rw [hemail, hname, hid]
  dsimp only
  rw [hq]
  simp only [stripeCustomerCreate, add_document, logCall,
    FREE_TRIAL_DURATION_DAYS]
  norm_num
  rw [hp]

/-- C2 counterexample: a tenant that anomalously starts with two
CustomerMapping records (the duplicate the spec itself flags as a known
concurrency gap) gets the same customer id from two sequential
`ensure_customer` calls, yet two CustomerMapping records remain for the
tenant — not exactly one, refuting the claim over arbitrary initial states. -/
theorem ensure_customer_idempotent_counterexample :
    (ensure_customer sessA none wDup).1 = .ok "cus_0" ∧
    ensure_customer sessA none (ensure_customer sessA none wDup).2 =
      (.ok "cus_0", (ensure_customer sessA none wDup).2) ∧
    (CustomerStore.get_by_field (ensure_customer sessA none wDup).2.customers
      "tenant_id" (some "tenantA")).length = 2 :=
  ⟨rfl, rfl, rfl⟩

/-- C2 (amended): for a tenant whose session resolves email, tenant id and
display name, starting from at most one CustomerMapping for the tenant, if
the first `ensure_customer` call (no override) succeeds with some customer
id, then a second sequential call returns the same id, changes nothing, and
exactly one CustomerMapping remains for the tenant. -/
theorem ensure_customer_idempotent (session : MySession) (w : World)
    (tid tname email cid : String)
    (hid : session.tenant_id = some tid)
    (hname : session.tenant_name = some tname)
    (hemail : session.email = some email)
    (hcount : (CustomerStore.get_by_field w.customers "tenant_id"
      (some tid)).length ≤ 1)
    (hfirst : (ensure_customer session none w).1 = .ok cid) :
    ensure_customer session none w =
        (.ok cid, (ensure_customer session none w).2) ∧
      ensure_customer session none (ensure_customer session none w).2 =
        (.ok cid, (ensure_customer session none w).2) ∧
      (CustomerStore.get_by_field (ensure_customer session none w).2.customers
        "tenant_id" (some tid)).length = 1 := by
  cases hq : CustomerStore.get_by_field w.customers "tenant_id" (some tid) with
  | cons c cs =>
    have hcs : cs = [] := by
      rw [hq, List.length_cons] at hcount
      exact List.eq_nil_of_length_eq_zero (by omega)
    subst hcs
    have hrun := ensure_customer_found session w tid tname email c []
      hid hname hemail hq
    have hcid : c.id = cid := by
      rw [hrun] at hfirst
      simpa using hfirst
    subst hcid
    refine ⟨?_, ?_, ?_⟩
    · rw [hrun]
    · rw [hrun]
      exact hrun
    · rw [hrun]
      dsimp only
      rw [hq]
      rfl
  | nil =>
    cases hp : get_products w.prices with
    | error e =>
      rw [ensure_customer_fresh_proderror session w tid tname email e
        hid hname hemail hq hp] at hfirst
      cases hfirst
    | ok ps =>
      cases ps with
      | nil =>
        have hrun := ensure_customer_fresh_noproducts session w tid tname email
          hid hname hemail hq hp
        rw [hrun] at hfirst
        cases hfirst
      | cons p ps =>
        have hrun := ensure_customer_fresh_ok session w tid tname email p ps
          hid hname hemail hq hp
        have hcid : "cus_" ++ toString w.nextStripeCustomer = cid := by
          rw [hrun] at hfirst
          simpa using hfirst
        subst hcid
        have hq1 : CustomerStore.get_by_field
            (ensure_customer session none w).2.customers "tenant_id"
            (some tid) =
            [⟨"cus_" ++ toString w.nextStripeCustomer, tid, email⟩] := by
          rw [hrun]
          dsimp only [stripeTrialSubscriptionCreate]
          rw [customer_get_by_field_append w.customers _ _ _ _ rfl, hq]
          rfl
        have hsecond := ensure_customer_found session
          (ensure_customer session none w).2 tid tname email
          ⟨"cus_" ++ toString w.nextStripeCustomer, tid, email⟩ []
          hid hname hemail hq1
        refine ⟨?_, ?_, ?_⟩
        · rw [hrun]
        · exact hsecond
        · rw [hq1]
          rfl

/-- Witness for the amended C2: a fresh tenant A in a world with a paid
price; both calls return cus_0 and one mapping remains. -/
theorem ensure_customer_idempotent_witness :
    (CustomerStore.get_by_field wFresh.customers "tenant_id"
        (some "tenantA")).length ≤ 1 ∧
    (ensure_customer sessA none wFresh).1 = .ok "cus_0" ∧
    (ensure_customer sessA none wFresh =
        (.ok "cus_0", (ensure_customer sessA none wFresh).2) ∧
      ensure_customer sessA none (ensure_customer sessA none wFresh).2 =
        (.ok "cus_0", (ensure_customer sessA none wFresh).2) ∧
      (CustomerStore.get_by_field
          (ensure_customer sessA none wFresh).2.customers
          "tenant_id" (some "tenantA")).length = 1) :=
  ⟨by decide, rfl,
   ensure_customer_idempotent sessA wFresh "tenantA" "Tenant A"
     "a@example.com" "cus_0" rfl rfl rfl (by decide) rfl⟩

/-- C10: for a new tenant (no CustomerMapping), `ensure_customer` persists
the mapping before attempting trial creation, so when the trial fails for
lack of a paid product the call errors with the mapping (and the provider
customer) already persisted, and a subsequent call returns the already
created customer id without creating a second provider customer or changing
anything. -/
theorem ensure_customer_mapping_survives_trial_failure (session : MySession)
    (w : World) (tid tname email : String)
    (hid : session.tenant_id = some tid)
    (hname : session.tenant_name = some tname)
    (hemail : session.email = some email)
    (hq : CustomerStore.get_by_field w.customers "tenant_id" (some tid) = [])
    (hp : get_products w.prices = .ok []) :
    (ensure_customer session none w).1 =
        .error "No paid products available for trial subscription" ∧
      CustomerStore.get_by_field (ensure_customer session none w).2.customers
          "tenant_id" (some tid) =
        [⟨"cus_" ++ toString w.nextStripeCustomer, tid, email⟩] ∧
      (ensure_customer session none w).2.stripeCustomers =
        w.stripeCustomers ++
          [("cus_" ++ toString w.nextStripeCustomer, email)] ∧
      ensure_customer session none (ensure_customer session none w).2 =
        (.ok ("cus_" ++ toString w.nextStripeCustomer),
         (ensure_customer session none w).2) := by
  have hrun := ensure_customer_fresh_noproducts session w tid tname email
    hid hname hemail hq hp
  have hq1 : CustomerStore.get_by_field
      (ensure_customer session none w).2.customers "tenant_id" (some tid) =
      [⟨"cus_" ++ toString w.nextStripeCustomer, tid, email⟩] := by
    rw [hrun]
    dsimp only
    rw [customer_get_by_field_append w.customers _ _ _ _ rfl, hq]
    rfl
  refine ⟨by rw [hrun], hq1, by rw [hrun], ?_⟩
  exact ensure_customer_found session (ensure_customer session none w).2 tid
    tname email ⟨"cus_" ++ toString w.nextStripeCustomer, tid, email⟩ []
    hid hname hemail hq1

/-- Witness for C10: a fresh tenant A in a world with no paid prices; the
first call errors after persisting the mapping to cus_0 and the second call
returns cus_0 unchanged. -/
theorem ensure_customer_mapping_survives_trial_failure_witness :
    CustomerStore.get_by_field wNoPrices.customers "tenant_id"
        (some "tenantA") = [] ∧
    get_products wNoPrices.prices = .ok [] ∧
    ((ensure_customer sessA none wNoPrices).1 =
        .error "No paid products available for trial subscription" ∧
      CustomerStore.get_by_field
          (ensure_customer sessA none wNoPrices).2.customers
          "tenant_id" (some "tenantA") =
        [⟨"cus_0", "tenantA", "a@example.com"⟩] ∧
      (ensure_customer sessA none wNoPrices).2.stripeCustomers =
        wNoPrices.stripeCustomers ++ [("cus_0", "a@example.com")] ∧
      ensure_customer sessA none (ensure_customer sessA none wNoPrices).2 =
        (.ok "cus_0", (ensure_customer sessA none wNoPrices).2)) :=
  ⟨by decide, rfl,
   ensure_customer_mapping_survives_trial_failure sessA wNoPrices "tenantA"
     "Tenant A" "a@example.com" rfl rfl rfl (by decide) rfl⟩
